import Mathlib

/-!
Shallow embedding of `detective.go` (package `detective`), a composable
health-state aggregation node.  The file models the `Detective` struct and
its methods (`New`, `WithHTTPClient`, `Dependency`, `Endpoint`,
`EndpointReq`, `getState`, `Handler`) from the source.  The types `State`,
`Dependency`, `Endpoint` and the `Doer` transport interface are part of the
repository but their defining files are not in `src/`; they are modelled
from the spec where noted.  Go's mutation of the `*Detective` receiver is
rendered as explicit state passing, Go pointers that may be nil as
`Option`, and a nil-pointer panic as a `none` result.  The concurrent
fan-out of `getState` is modelled by an explicit interleaving semantics in
which each goroutine's unsynchronized `subStates = append(subStates, s)`
is split into its two racy halves: a read of the shared slice and a write
of the extended slice.
-/

/-- Modelled from the spec: the `State` type (its defining file is missing
from `src/`).  A Health State is a name plus a collection of child states
(§3); the wire shape is `\x7b"Name": string, "Dependencies": [...]\x7d` (§6). -/
inductive State where
  | mk : String → List State → State

/-- Field accessor for the state's name (`State.Name` in the source). -/
def State.Name : State → String
  | .mk n _ => n

/-- Field accessor for the state's children (`State.Dependencies`). -/
def State.Dependencies : State → List State
  | .mk _ ds => ds

/-- Modelled from the spec: `State.WithDependencies` (missing from `src/`)
attaches the collected sub-states as the children of the state (§4.1: the
children are exactly the collected sub-states). -/
def State.WithDependencies (s : State) (ds : List State) : State :=
  State.mk s.Name ds

/-- Modelled from the spec: the `Dependency` type (its defining file is
missing from `src/`).  A Local Dependency is a named sub-component that may
recursively own further dependencies (§2, §4.3). -/
inductive Dependency where
  | mk : String → List Dependency → Dependency

/-- Modelled from the spec: `NewDependency` (missing from `src/`) creates a
fresh Local Dependency handle with the given name and no sub-dependencies. -/
def NewDependency (name : String) : Dependency :=
  Dependency.mk name []

mutual

/-- Modelled from the spec: `Dependency.getState` (missing from `src/`).
Local probing always succeeds and is recursively equivalent to a node's
`queryState`; a leaf yields a state with an empty child collection (§4.3). -/
def Dependency.getState : Dependency → State
  | .mk n ds => State.mk n (Dependency.getStates ds)

/-- Probe each dependency of a list in turn (the list part of the mutual
recursion of `Dependency.getState`). -/
def Dependency.getStates : List Dependency → List State
  | [] => []
  | d :: ds => Dependency.getState d :: Dependency.getStates ds

end

/-- An HTTP request, modelled as a value holding the fields the source
touches: a method and a URL (`http.NewRequest(http.MethodGet, url, nil)`). -/
structure Request where
  method : String
  url : String

/-- A JSON-like payload tree, the codomain of serialization (§6). -/
inductive Json where
  | str : String → Json
  | arr : List Json → Json
  | obj : List (String × Json) → Json

/-- An HTTP response, modelled as its decoded body payload. -/
structure Response where
  body : Json

/-- Modelled from the spec: the `Doer` transport capability (missing from
`src/`): sends a request and returns a response or a failure (§1, §6). -/
def Doer : Type := Request → Except String Response

/-- The `Endpoint` struct: its fields `client` and `req` are fixed by the
composite literal in `Detective.EndpointReq` (src lines 50–53). -/
structure Endpoint where
  client : Doer
  req : Request

/-- The `Detective` struct (src lines 12–17). -/
structure Detective where
  name : String
  client : Doer
  dependencies : List Dependency
  endpoints : List Endpoint

/-- Modelled from the spec: the default transport `&http.Client\x7b\x7d` is
external; its network behavior is outside the model, so it is a doer that
reports a transport failure. -/
def defaultHTTPClient : Doer :=
  fun _ => Except.error "network unavailable"

/-- `New` (src lines 20–25): a fresh node with the given name, the default
client and empty dependency and endpoint collections. -/
def New (name : String) : Detective :=
  { name := name
    client := defaultHTTPClient
    dependencies := []
    endpoints := [] }

/-- `Detective.WithHTTPClient` (src lines 28–31): replaces the node's
client and returns the node. -/
def Detective.WithHTTPClient (d : Detective) (c : Doer) : Detective :=
  { d with client := c }

/-- `Detective.Dependency` (src lines 34–38): appends a fresh Local
Dependency and returns it; state-passing rendering of the mutation. -/
def Detective.Dependency (d : Detective) (name : String) : Detective × Dependency :=
  let dependency := NewDependency name
  ({ d with dependencies := d.dependencies ++ [dependency] }, dependency)

/-- The body of `Detective.EndpointReq` after the `*req` dereference: build
an `Endpoint` from the node's current client and the request value and
append it (src lines 50–54). -/
def Detective.addEndpoint (d : Detective) (r : Request) : Detective :=
  { d with endpoints := d.endpoints ++ [{ client := d.client, req := r }] }

/-- `Detective.EndpointReq` (src lines 49–55).  The parameter is a Go
pointer `*http.Request`, modelled as `Option Request`; the body copies the
pointee (`req: *req`), which dereferences the pointer, so a nil argument
panics — modelled as a `none` result (no successor state). -/
def Detective.EndpointReq (d : Detective) (req : Option Request) : Option Detective :=
  req.map d.addEndpoint

/-- Go's `url.Parse` rejects URLs containing ASCII control characters.
Modelled from the spec: `http.NewRequest` is external; per §4.1 request
construction fails exactly when the URL is malformed, and malformedness is
modelled as the presence of a control character. -/
def urlMalformed (url : String) : Bool :=
  url.data.any (fun c => c.toNat < 32)

/-- Modelled from the spec: `http.NewRequest` (external): build a request
with the given method and URL, failing iff the URL is malformed (§4.1). -/
def NewRequest (method : String) (url : String) : Except String Request :=
  if urlMalformed url then
    Except.error "net/url: invalid control character in URL"
  else
    Except.ok { method := method, url := url }

/-- `Detective.Endpoint` (src lines 40–47): construct a default GET request
for the URL; on construction failure return the error and leave the node
unchanged; on success register the endpoint (via `EndpointReq`, whose
argument is the freshly constructed, hence non-nil, request).  The pair is
the state-passing rendering of `(receiver mutation, returned error)`. -/
def Detective.Endpoint (d : Detective) (url : String) : Detective × Option String :=
  match NewRequest "GET" url with
  | .error e => (d, some e)
  | .ok req => (d.addEndpoint req, none)

mutual

/-- Modelled from the spec: the serialization of a Health State performed
by the query surface's `json.Marshal` (external, §4.4, §6): an object with
a `Name` string field and a `Dependencies` array of recursively serialized
children. -/
def encodeState : State → Json
  | .mk n ds => Json.obj [("Name", Json.str n), ("Dependencies", Json.arr (encodeStates ds))]

/-- Serialize each state of a list (the list part of the mutual recursion
of `encodeState`). -/
def encodeStates : List State → List Json
  | [] => []
  | s :: ss => encodeState s :: encodeStates ss

end

mutual

/-- Modelled from the spec: the decoding a peer's report performed by a
Remote Endpoint probe (external `json.Unmarshal`, §4.2, §6): accept the
binding wire shape — an object carrying a `Name` string and a
`Dependencies` array, in either field order — and fail on anything else. -/
def decodeState : Json → Option State
  | .obj [("Name", .str n), ("Dependencies", .arr xs)] =>
      (decodeStates xs).map (State.mk n)
  | .obj [("Dependencies", .arr xs), ("Name", .str n)] =>
      (decodeStates xs).map (State.mk n)
  | _ => none

/-- Decode each payload of a list, failing if any element fails (the list
part of the mutual recursion of `decodeState`). -/
def decodeStates : List Json → Option (List State)
  | [] => some []
  | x :: xs =>
      match decodeState x, decodeStates xs with
      | some s, some ss => some (s :: ss)
      | _, _ => none

end

/-- Modelled from the spec: `Endpoint.getState` (missing from `src/`).
Send the prepared request through the captured client; on success decode
the body as the peer's Health State; on transport failure or an
undecodable payload still produce a placeholder state (named for the
endpoint's URL, with no children) so the entry is present in the parent's
report (§4.2). -/
def Endpoint.getState (e : Endpoint) : State :=
  match e.client e.req with
  | .ok resp =>
      match decodeState resp.body with
      | some s => s
      | none => State.mk e.req.url []
  | .error _ => State.mk e.req.url []

/-- The sub-results the fan-out of `Detective.getState` computes: one per
registered local dependency, then one per registered endpoint, in
registration order (src lines 62–75: the goroutine launched for task `i`
computes this state and contributes it to the shared `subStates` slice). -/
def Detective.subResults (d : Detective) : List State :=
  d.dependencies.map Dependency.getState ++ d.endpoints.map Endpoint.getState

/-- One scheduler event of the fan-out of `Detective.getState`: goroutine
`i`'s unsynchronized `subStates = append(subStates, s)` (src lines 65 and
72) is two racy halves — `read i` captures the current shared slice, and
`write i` stores the captured slice extended with task `i`'s result. -/
inductive Ev where
  | read : Nat → Ev
  | write : Nat → Ev
deriving DecidableEq

/-- The shared state of an in-flight fan-out: the shared `subStates` slice
and, per goroutine, the slice snapshot its pending append has read. -/
structure Exec where
  shared : List State
  snaps : Nat → Option (List State)

/-- Execute one scheduler event, given the per-task probe results `rs`. -/
def stepEv (rs : List State) (ex : Exec) : Ev → Exec
  | .read i => { ex with snaps := fun j => if j = i then some ex.shared else ex.snaps j }
  | .write i =>
      match ex.snaps i, rs[i]? with
      | some snap, some r => { ex with shared := snap ++ [r] }
      | _, _ => ex

/-- The contents of the shared `subStates` slice after the fan-out runs
under the interleaving `evs`, starting from the empty slice. -/
def runEvs (rs : List State) (evs : List Ev) : List State :=
  (evs.foldl (stepEv rs) { shared := [], snaps := fun _ => none }).shared

/-- An interleaving is a valid schedule of the fan-out of `T` goroutines
when every task `i < T` reads once and writes once, its read precedes its
write (a goroutine runs its own statements in order), and no other task is
mentioned.  `wg.Wait()` (src line 76) guarantees the caller resumes only
after such a complete schedule. -/
def isValidSchedule (T : Nat) (evs : List Ev) : Bool :=
  (List.range T).all (fun i =>
    evs.count (Ev.read i) == 1 && evs.count (Ev.write i) == 1 &&
    decide (evs.indexOf (Ev.read i) < evs.indexOf (Ev.write i))) &&
  evs.all (fun e => match e with | .read i => decide (i < T) | .write i => decide (i < T))

/-- `Detective.getState` (src lines 57–79) under the interleaving `evs`:
fan out one goroutine per dependency and endpoint, let the scheduler run
the appends as `evs` orders them, wait, and wrap the accumulated slice
under the node's own name via `WithDependencies`. -/
def Detective.getStateWith (d : Detective) (evs : List Ev) : State :=
  let subStates := runEvs d.subResults evs
  let s := State.mk d.name []
  s.WithDependencies subStates

/-- The race-free schedule: each goroutine's read is immediately followed
by its write (no interleaving between appends). -/
def seqSchedule (T : Nat) : List Ev :=
  (List.range T).flatMap (fun i => [Ev.read i, Ev.write i])

/-- An HTTP response as the query surface produces it: a status code and a
body. -/
structure HandlerResponse where
  status : Nat
  body : String

/-- `Detective.Handler` (src lines 81–92): compute the node's state under
the fan-out interleaving `evs`, serialize it with the (external, hence
parametric) marshaller; on serialization failure reply 500 with no body,
otherwise write the payload (Go's implicit status 200). -/
def Detective.Handler (d : Detective) (marshal : State → Except String String)
    (evs : List Ev) : HandlerResponse :=
  match marshal (d.getStateWith evs) with
  | .error _ => { status := 500, body := "" }
  | .ok sBody => { status := 200, body := sBody }

/-! Concrete nodes and schedules used to exercise the fan-out. -/

/-- A node with two local dependencies, `"a"` (task 0) and `"b"` (task 1). -/
def exDet : Detective :=
  (((New "root").Dependency "a").1.Dependency "b").1

/-- A valid interleaving of the two appends in which both goroutines read
the empty shared slice before either writes: task 1's write overwrites the
slice task 0 produced, losing task 0's sub-state. -/
def racy2 : List Ev :=
  [Ev.read 0, Ev.read 1, Ev.write 0, Ev.write 1]

/-- A transport that always fails, standing for an unreachable peer. -/
def failingDoer : Doer :=
  fun _ => Except.error "connection refused"

/-- A node `"A"` with local dependency `"db"` (task 0) and one remote
endpoint at an unreachable peer (task 1). -/
def exFail : Detective :=
  ((((New "A").WithHTTPClient failingDoer).Dependency "db").1.Endpoint "http://peer").1

/-- A valid interleaving in which the endpoint goroutine's append is
overwritten by the dependency goroutine's append. -/
def racyDrop : List Ev :=
  [Ev.read 0, Ev.read 1, Ev.write 1, Ev.write 0]

/-! Helper lemmas for the serialization round-trip. -/

theorem decode_encode_list (ds : List State)
    (ih : ∀ s ∈ ds, decodeState (encodeState s) = some s) :
    decodeStates (encodeStates ds) = some ds := by
  induction ds with
  | nil => simp [encodeStates, decodeStates]
  | cons h t iht =>
    have h1 := ih h (List.mem_cons_self h t)
    have h2 := iht (fun s hs => ih s (List.mem_cons_of_mem h hs))
    simp [encodeStates, decodeStates, h1, h2]

theorem decode_encode_aux : ∀ n (s : State), sizeOf s < n →
    decodeState (encodeState s) = some s := by
  intro n
  induction n with
  | zero => intro s h; exact absurd h (Nat.not_lt_zero _)
  | succ n ih =>
    intro s hs
    match s with
    | State.mk nm ds =>
      have hds : ∀ t ∈ ds, decodeState (encodeState t) = some t := by
        intro t ht
        apply ih
        have h1 : sizeOf t < sizeOf ds := List.sizeOf_lt_of_mem ht
        have h2 : sizeOf (State.mk nm ds) = 1 + sizeOf nm + sizeOf ds := by simp
        omega
      have hlist := decode_encode_list ds hds
      simp [encodeState, decodeState, hlist]

/-! The claims. -/

/-- C1: the claim says `getState` always returns a state with exactly
`T = |dependencies| + |endpoints|` children.  The code violates it: on a
node with `T = 2`, a valid interleaving of the two unsynchronized appends
(both goroutines read the empty slice before either writes) yields only 1
child, while the race-free schedule yields the claimed 2. -/
theorem getState_child_count_lost_under_race :
    exDet.dependencies.length + exDet.endpoints.length = 2 ∧
    isValidSchedule 2 racy2 = true ∧
    (exDet.getStateWith (seqSchedule 2)).Dependencies.length = 2 ∧
    (exDet.getStateWith racy2).Dependencies.length = 1 :=
  ⟨rfl, by decide, rfl, rfl⟩

/-- C2: the claim says the children are exactly the states of all
registered dependencies and endpoints, none omitted.  The code violates
it: the node registers `"a"` and `"b"` and both probes produce their
states, yet under the valid interleaving `racy2` the returned children
name only `"b"` — the registered dependency `"a"` is silently omitted. -/
theorem getState_omits_registered_dependency :
    exDet.subResults.map State.Name = ["a", "b"] ∧
    isValidSchedule 2 racy2 = true ∧
    (exDet.getStateWith racy2).Dependencies.map State.Name = ["b"] :=
  ⟨rfl, by decide, rfl⟩

/-- C3: the claim says the shared accumulation is protected by a
concurrency-safe strategy so that no concurrent append races.  The code's
accumulation (`subStates = append(subStates, s)` with no lock) is not
race-safe: two valid schedules of the very same fan-out produce shared
slices of different lengths — a lost update. -/
theorem append_accumulation_not_race_safe :
    isValidSchedule 2 (seqSchedule 2) = true ∧
    isValidSchedule 2 racy2 = true ∧
    (runEvs exDet.subResults (seqSchedule 2)).length = 2 ∧
    (runEvs exDet.subResults racy2).length = 1 :=
  ⟨by decide, by decide, rfl, rfl⟩

/-- C4: `Detective.Endpoint` errors exactly when the URL is malformed; on
failure the node is unchanged; on success the endpoint collection grows by
exactly the default GET endpoint for that URL and the dependency
collection is unchanged. -/
theorem Endpoint_errors_iff_malformed_url (d : Detective) (url : String) :
    ((d.Endpoint url).2.isSome ↔ urlMalformed url = true) ∧
    (urlMalformed url = true → (d.Endpoint url).1 = d) ∧
    (urlMalformed url = false →
      (d.Endpoint url).1.dependencies = d.dependencies ∧
      (d.Endpoint url).1.endpoints
        = d.endpoints ++ [{ client := d.client, req := { method := "GET", url := url } }] ∧
      (d.Endpoint url).2 = none) := by
  cases h : urlMalformed url <;>
    simp [Detective.Endpoint, NewRequest, Detective.addEndpoint, h]

/-- Witness for C4: registering the well-formed URL `"http://x"` on a
fresh node appends exactly the default GET endpoint. -/
theorem Endpoint_errors_iff_malformed_url_witness :
    ((New "n").Endpoint "http://x").1.endpoints
      = (New "n").endpoints
        ++ [{ client := (New "n").client, req := { method := "GET", url := "http://x" } }] :=
  (((Endpoint_errors_iff_malformed_url (New "n") "http://x").2.2) (by decide)).2.1

/-- C5: the claim says `queryState` never fails and a failing endpoint
still contributes exactly one child.  The returned state always carries
the node's name (and the race-free schedule does include the unreachable
endpoint's placeholder child), but the code violates the exactly-one-child
part: under the valid interleaving `racyDrop` the failing endpoint's
contribution is overwritten by the sibling append and vanishes from the
report. -/
theorem queryState_total_but_failing_endpoint_child_lost :
    (∀ (d : Detective) (evs : List Ev), (d.getStateWith evs).Name = d.name) ∧
    (exFail.getStateWith (seqSchedule 2)).Dependencies.map State.Name = ["db", "http://peer"] ∧
    isValidSchedule 2 racyDrop = true ∧
    (exFail.getStateWith racyDrop).Dependencies.map State.Name = ["db"] :=
  ⟨fun _ _ => rfl, rfl, by decide, rfl⟩

/-- C6: `Detective.Dependency` accepts any name — including one already in
use — creates the new handle `NewDependency name`, appends it (growing the
dependency collection by exactly one, all else unchanged), returns it, and
has no failure path. -/
theorem Dependency_appends_handle_for_any_name (d : Detective) (name : String) :
    (d.Dependency name).2 = NewDependency name ∧
    (d.Dependency name).1.dependencies = d.dependencies ++ [NewDependency name] ∧
    (d.Dependency name).1.dependencies.length = d.dependencies.length + 1 ∧
    (d.Dependency name).1.endpoints = d.endpoints ∧
    (d.Dependency name).1.name = d.name ∧
    (d.Dependency name).1.client = d.client :=
  ⟨rfl, rfl, by simp [Detective.Dependency], rfl, rfl, rfl⟩

/-- C7 counterexample: `EndpointReq` does not succeed on every
caller-supplied request — its parameter is a request pointer and the body
dereferences it (`req: *req`), so the nil request panics instead of
appending an endpoint. -/
theorem EndpointReq_nil_request_panics :
    (New "n").EndpointReq none = none :=
  rfl

/-- C7 (amended): for every non-nil caller-supplied request, `EndpointReq`
succeeds and appends exactly one Remote Endpoint built from the node's
current client and that request, leaving everything else unchanged. -/
theorem EndpointReq_nonnil_appends_endpoint (d : Detective) (r : Request) :
    d.EndpointReq (some r)
      = some { d with endpoints := d.endpoints ++ [{ client := d.client, req := r }] } ∧
    (d.addEndpoint r).endpoints.length = d.endpoints.length + 1 ∧
    (d.addEndpoint r).dependencies = d.dependencies :=
  ⟨rfl, by simp [Detective.addEndpoint], rfl⟩

/-- C8: the handler serializes the queried state and writes it with
status 200, and replies 500 with an empty body exactly when serialization
fails. -/
theorem Handler_status_matches_serialization (d : Detective)
    (marshal : State → Except String String) (evs : List Ev) :
    (∀ b, marshal (d.getStateWith evs) = Except.ok b →
      d.Handler marshal evs = { status := 200, body := b }) ∧
    (∀ e, marshal (d.getStateWith evs) = Except.error e →
      d.Handler marshal evs = { status := 500, body := "" }) ∧
    ((d.Handler marshal evs).status = 500 ↔
      ∃ e, marshal (d.getStateWith evs) = Except.error e) := by
  cases h : marshal (d.getStateWith evs) with
  | error e =>
    refine ⟨?_, ?_, ?_⟩
    · intro b hb
      exact absurd hb (by simp)
    · intro e2 _
      simp [Detective.Handler, h]
    · simp [Detective.Handler, h]
  | ok b =>
    refine ⟨?_, ?_, ?_⟩
    · intro b2 hb
      cases hb
      simp [Detective.Handler, h]
    · intro e he
      exact absurd he (by simp)
    · simp [Detective.Handler, h]

/-- Witness for C8: a marshaller that fails makes the handler reply 500
with an empty body. -/
theorem Handler_status_matches_serialization_witness :
    (New "w").Handler (fun _ => Except.error "boom") [] = { status := 500, body := "" } :=
  (Handler_status_matches_serialization (New "w") (fun _ => Except.error "boom") []).2.1
    "boom" rfl

/-- C9: serializing a Health State as the query surface does and decoding
it as a peer's remote probe does reproduces the identical nested report:
the round-trip is the identity. -/
theorem serialize_decode_roundtrip (s : State) :
    decodeState (encodeState s) = some s :=
  decode_encode_aux (sizeOf s + 1) s (Nat.lt_succ_self _)

/-- C10: registering an endpoint captures the node's client of that moment
and the request value (`req: *req` copies the pointee); a later
`WithHTTPClient` and a later registration with a different request value
leave the already-registered endpoint's captured client and request
exactly as they were. -/
theorem endpoint_captures_client_and_request (d : Detective) (c : Doer)
    (r rLater : Request) :
    ∃ d1 d2,
      d.EndpointReq (some r) = some d1 ∧
      (d1.WithHTTPClient c).EndpointReq (some rLater) = some d2 ∧
      (d1.WithHTTPClient c).endpoints = d1.endpoints ∧
      d1.endpoints = d.endpoints ++ [{ client := d.client, req := r }] ∧
      d2.endpoints
        = d.endpoints ++ [{ client := d.client, req := r }, { client := c, req := rLater }] ∧
      d2.client = c :=
  ⟨_, _, rfl, rfl, rfl, rfl,
    by simp [Detective.EndpointReq, Detective.addEndpoint, Detective.WithHTTPClient],
    rfl⟩
